import Mathlib

/-!
Verification of the payments-diagram generation endpoint and client
error rewriting.  The endpoint handlers in
`src/payments-diagram/app/api/flow/route.ts` (namespace `FlowRoute`) and
the root app’s `app/api/flow/route.ts` (namespace `AppFlowRoute`) are
embedded as pure functions over an explicit `World` recording the
behaviour of the external environment (request-body JSON parsing, the
upstream fetch, and the runtime JSON parser).
-/

/-- A JSON value, the data model for request bodies, upstream payloads and
endpoint responses. -/
inductive Json where
  | null : Json
  | bool (b : Bool) : Json
  | num (n : Int) : Json
  | str (s : String) : Json
  | arr (elems : List Json) : Json
  | obj (fields : List (String × Json)) : Json

/-- JavaScript property access `v.k`: a key lookup on an object, `undefined`
(`none`) on every other value. -/
def jsGet (v : Json) (k : String) : Option Json :=
  match v with
  | .obj fs => (fs.find? (fun p => p.1 == k)).map (fun p => p.2)
  | _ => none

/-- JavaScript truthiness test: `undefined`, `null`, `false`, `0` and the
empty string are falsy. -/
def jsFalsy : Option Json → Bool
  | none => true
  | some .null => true
  | some (.bool b) => !b
  | some (.num n) => n == 0
  | some (.str s) => s == ""
  | some (.arr _) => false
  | some (.obj _) => false

/-- `typeof v === "string"` on a possibly-undefined value. -/
def jsIsString : Option Json → Bool
  | some (.str _) => true
  | _ => false

/-- The string payload of a value known to be a string (defaulting to `""`;
only consulted after `jsIsString` in the handlers, mirroring the
short-circuit evaluation in the source). -/
def jsStrVal : Option Json → String
  | some (.str s) => s
  | _ => ""

/-- JavaScript `String.prototype.trim`: strips leading and trailing
whitespace. -/
def jsTrim (s : String) : String :=
  String.mk (((s.toList.dropWhile Char.isWhitespace).reverse.dropWhile Char.isWhitespace).reverse)

/-- JavaScript `String.prototype.startsWith`. -/
def jsStartsWith (s pre : String) : Bool :=
  pre.toList.isPrefixOf s.toList

/-- Optional chaining `v?.k`: short-circuits to `undefined` when `v` is
`undefined` or `null`, otherwise a property access. -/
def jsChain (v : Option Json) (k : String) : Option Json :=
  match v with
  | none => none
  | some .null => none
  | some w => jsGet w k

/-- Optional chained indexing `v?.[i]`: element access on arrays, the
corresponding numeric-key property on objects, a one-character string on
strings, `undefined` otherwise. -/
def jsIndex (v : Option Json) (i : Nat) : Option Json :=
  match v with
  | none => none
  | some .null => none
  | some (.arr xs) => xs.get? i
  | some (.obj fs) => jsGet (.obj fs) (toString i)
  | some (.str s) => (s.toList.get? i).map (fun c => Json.str (String.mk [c]))
  | some _ => none

mutual
/-- JavaScript `ToString` coercion of a value (as applied by `JSON.parse`
to a non-string argument): arrays join their elements with commas,
rendering `null` elements as empty, and plain objects render as
`[object Object]`. -/
def jsToString : Json → String
  | .null => "null"
  | .bool b => cond b "true" "false"
  | .num n => toString n
  | .str s => s
  | .arr xs => String.intercalate "," (jsToStringElems xs)
  | .obj _ => "[object Object]"

/-- Stringification of the elements of an array for `jsToString`. -/
def jsToStringElems : List Json → List String
  | [] => []
  | .null :: xs => "" :: jsToStringElems xs
  | x :: xs => jsToString x :: jsToStringElems xs
end

/-- The value at `data?.choices?.[0]?.message?.content` of an upstream
payload, before the nullish-coalescing default. -/
def contentOpt (data : Json) : Option Json :=
  jsChain (jsChain (jsIndex (jsChain (some data) "choices") 0) "message") "content"

/-- `data?.choices?.[0]?.message?.content ?? "\x7b\x7d"`: the content value
with `undefined` and `null` replaced by the literal two-character string
holding an empty JSON object. -/
def contentJson (data : Json) : Json :=
  match contentOpt data with
  | none => Json.str "\x7b\x7d"
  | some .null => Json.str "\x7b\x7d"
  | some v => v

/-- The string actually handed to `JSON.parse` for an upstream payload
`data` (the content value after the nullish default and `ToString`
coercion). -/
def contentStrOf (data : Json) : String :=
  jsToString (contentJson data)

/-- Whether the upstream payload holds a string at
`choices[0].message.content`. -/
def contentIsStr (data : Json) : Bool :=
  match contentOpt data with
  | some (.str _) => true
  | _ => false

/-- Field extraction `typeof parsed.k === "string" ? parsed.k : ""`:
the string at key `k`, defaulting to the empty string when the field is
missing or not a string. -/
def extractField (parsed : Json) (k : String) : String :=
  match jsGet parsed k with
  | some (.str s) => s
  | _ => ""

/-- Whether `parsed` has a string field at key `k`. -/
def isStringField (parsed : Json) (k : String) : Bool :=
  match jsGet parsed k with
  | some (.str _) => true
  | _ => false

/-- A thrown JavaScript value: either an `Error` instance carrying a
message, or any other thrown value. -/
inductive JsErr where
  | error (message : String) : JsErr
  | nonError : JsErr

/-- `err instanceof Error ? err.message : "Unknown error"`, the message
computed by the handlers’ catch-all. -/
def catchMessage : JsErr → String
  | .error m => m
  | .nonError => "Unknown error"

/-- The observable behaviour of the upstream fetch response: its `ok`
flag, numeric status, text body (`await resp.text()`), and the outcome of
`await resp.json()`. -/
structure FetchResponse where
  ok : Bool
  status : Nat
  text : String
  json : Except JsErr Json

/-- The environment of one request to the handler in
`src/payments-diagram/app/api/flow/route.ts`: the outcome of
`await req.json()`, of `await fetch(...)`, and the runtime JSON parser
(`JSON.parse`, whose failure carries the `SyntaxError` message). -/
structure World where
  reqJson : Except JsErr Json
  fetch : Except JsErr FetchResponse
  parse : String → Except String Json

/-- Destructuring `const \x7b flow \x7d = body`: throws a `TypeError` when
the body is `null`, otherwise yields the `flow` property. -/
def destructFlow (body : Json) : Except JsErr (Option Json) :=
  match body with
  | .null => .error (.error "Cannot destructure property flow of null as it is null.")
  | b => .ok (jsGet b "flow")

/-- The request-validation condition
`!flow || typeof flow !== "string" || flow.trim().length < 10`. -/
def flowRejected (flow : Option Json) : Bool :=
  jsFalsy flow || !(jsIsString flow) || decide ((jsTrim (jsStrVal flow)).length < 10)

/-- An HTTP response produced by the handler: a status code and a JSON
body, as built by `NextResponse.json(body, \x7b status \x7d)`. -/
structure ApiResponse where
  status : Nat
  body : Json

namespace NextResponse

/-- `NextResponse.json(body, \x7b status \x7d)`. -/
def json (body : Json) (status : Nat) : ApiResponse := ⟨status, body⟩

end NextResponse

/-- The body `\x7b error: msg \x7d` of every failure response. -/
def errorBody (msg : String) : Json := Json.obj [("error", Json.str msg)]

/-- The 400 response to an invalid narrative. -/
def validationError : ApiResponse :=
  NextResponse.json (errorBody "Please provide a longer narrative.") 400

/-- The 500 response to a diagram failing the grammar-marker check. -/
def retryError : ApiResponse :=
  NextResponse.json (errorBody "Model did not return valid Mermaid. Try again.") 500

/-- The 500 response carrying a fixed message when the upstream content is
not parseable JSON (present only in the root app’s handler). -/
def invalidJsonError : ApiResponse :=
  NextResponse.json (errorBody "Model did not return valid JSON.") 500

/-- A 500 response carrying the message `msg`. -/
def serverError (msg : String) : ApiResponse :=
  NextResponse.json (errorBody msg) 500

/-- The 200 response echoing the extracted diagram and notes. -/
def successResponse (m n : String) : ApiResponse :=
  NextResponse.json (Json.obj [("mermaid", Json.str m), ("notes", Json.str n)]) 200

namespace FlowRoute

/-- The handler `POST` of `src/payments-diagram/app/api/flow/route.ts`,
as a function of the request/upstream environment.  Every step that can
throw (`req.json()`, `fetch`, `resp.json()`, `JSON.parse`, destructuring a
null body) routes through the final catch-all, which answers 500 with the
thrown error’s message. -/
def POST (w : World) : ApiResponse :=
  match w.reqJson with
  | .error e => NextResponse.json (errorBody (catchMessage e)) 500
  | .ok reqBody =>
    match destructFlow reqBody with
    | .error e => NextResponse.json (errorBody (catchMessage e)) 500
    | .ok flow =>
      if flowRejected flow then
        NextResponse.json (errorBody "Please provide a longer narrative.") 400
      else
        match w.fetch with
        | .error e => NextResponse.json (errorBody (catchMessage e)) 500
        | .ok resp =>
          if !resp.ok then
            NextResponse.json (errorBody resp.text) 500
          else
            match resp.json with
            | .error e => NextResponse.json (errorBody (catchMessage e)) 500
            | .ok data =>
              match w.parse (contentStrOf data) with
              | .error m => NextResponse.json (errorBody m) 500
              | .ok parsed =>
                let mermaid := extractField parsed "mermaid"
                let notes := extractField parsed "notes"
                if !(jsStartsWith mermaid "sequenceDiagram") then
                  NextResponse.json (errorBody "Model did not return valid Mermaid. Try again.") 500
                else
                  NextResponse.json (Json.obj [("mermaid", Json.str mermaid), ("notes", Json.str notes)]) 200

end FlowRoute

/-- Falsiness of `process.env.OPENAI_API_KEY` (`undefined` or empty). -/
def envFalsy : Option String → Bool
  | none => true
  | some s => s == ""

/-- The environment of one request to the root app’s handler
(`app/api/flow/route.ts`, `src/unnamed/part_001`): additionally records
the `OPENAI_API_KEY` environment variable. -/
structure AppWorld where
  apiKey : Option String
  reqJson : Except JsErr Json
  fetch : Except JsErr FetchResponse
  parse : String → Except String Json

namespace AppFlowRoute

/-- The handler `POST` of the root app’s `app/api/flow/route.ts`
(`src/unnamed/part_001`).  It differs from `FlowRoute.POST` in checking
the API key first, defaulting a failed request-body parse to `\x7b\x7d`,
prefixing the upstream error text with the upstream status, and guarding
`JSON.parse` of the content with a fixed failure message. -/
def POST (w : AppWorld) : ApiResponse :=
  if envFalsy w.apiKey then
    NextResponse.json (errorBody "Missing OPENAI_API_KEY in .env.local") 500
  else
    let reqBody := match w.reqJson with
      | .error _ => Json.obj []
      | .ok b => b
    match destructFlow reqBody with
    | .error e => NextResponse.json (errorBody (catchMessage e)) 500
    | .ok flow =>
      if flowRejected flow then
        NextResponse.json (errorBody "Please provide a longer narrative.") 400
      else
        match w.fetch with
        | .error e => NextResponse.json (errorBody (catchMessage e)) 500
        | .ok resp =>
          if !resp.ok then
            NextResponse.json (errorBody ("OpenAI error (" ++ toString resp.status ++ "): " ++ resp.text)) 500
          else
            match resp.json with
            | .error e => NextResponse.json (errorBody (catchMessage e)) 500
            | .ok data =>
              match w.parse (contentStrOf data) with
              | .error _ => NextResponse.json (errorBody "Model did not return valid JSON.") 500
              | .ok parsed =>
                let mermaid := extractField parsed "mermaid"
                let notes := extractField parsed "notes"
                if !(jsStartsWith mermaid "sequenceDiagram") then
                  NextResponse.json (errorBody "Model did not return valid Mermaid. Try again.") 500
                else
                  NextResponse.json (Json.obj [("mermaid", Json.str mermaid), ("notes", Json.str notes)]) 200

end AppFlowRoute

/-- JavaScript `msg.includes(pat)`: substring containment. -/
def strIncludes (s pat : String) : Bool :=
  s.toList.tails.any (fun t => pat.toList.isPrefixOf t)

/-- The client UI’s error rewriting `cleanApiError` from
`src/app/page.tsx`. -/
def cleanApiError (msg : String) : String :=
  if strIncludes msg "insufficient_quota" then
    "API quota unavailable. Add billing or switch to a key with credits."
  else if strIncludes msg "Model did not return" then
    "Couldn’t render the diagram. Please Generate again."
  else if jsStartsWith (jsTrim msg) "\x7b" then
    "Server returned an unexpected response. Please try again."
  else
    msg


lemma destructFlow_ok (body : Json) (hb : body ≠ Json.null) :
    destructFlow body = Except.ok (jsGet body "flow") := by
  cases body <;> simp [destructFlow] at hb ⊢

lemma body_ne_null_of_flow_ok {body : Json}
    (h : flowRejected (jsGet body "flow") = false) : body ≠ Json.null := by
  intro e
  subst e
  simp [jsGet, flowRejected, jsFalsy] at h

lemma strIncludes_refl (b : String) : strIncludes b b = true := by
  unfold strIncludes
  rw [List.any_eq_true]
  exact ⟨b.toList, by rw [List.mem_tails], by simp⟩

lemma strIncludes_self_suffix (a b : String) : strIncludes (a ++ b) b = true := by
  unfold strIncludes
  rw [List.any_eq_true]
  refine ⟨b.toList, ?_, by simp⟩
  rw [List.mem_tails]
  exact ⟨a.toList, by simp [String.toList]⟩

/-- Claim C1: a request whose flow field is absent, not a string, or shorter
than 10 characters after trimming is answered 400 with the validation
message, for every upstream behaviour (so the upstream service is never
consulted and the result does not depend on it); in both handler variants. -/
theorem c1_invalid_narrative_rejected (body : Json) (hb : body ≠ Json.null)
    (h : jsGet body "flow" = none ∨ jsIsString (jsGet body "flow") = false ∨
      (jsTrim (jsStrVal (jsGet body "flow"))).length < 10) :
    (∀ f p, FlowRoute.POST ⟨Except.ok body, f, p⟩ = validationError) ∧
    (∀ k f p, envFalsy k = false →
      AppFlowRoute.POST ⟨k, Except.ok body, f, p⟩ = validationError) := by
  have hrej : flowRejected (jsGet body "flow") = true := by
    rcases h with h | h | h
    · simp [flowRejected, h, jsFalsy]
    · simp [flowRejected, h]
    · simp [flowRejected, h]
  refine ⟨fun f p => ?_, fun k f p hk => ?_⟩
  · simp [FlowRoute.POST, destructFlow_ok body hb, hrej, validationError, NextResponse.json]
  · simp [AppFlowRoute.POST, hk, destructFlow_ok body hb, hrej, validationError, NextResponse.json]

theorem c1_witness :
    FlowRoute.POST ⟨Except.ok (Json.obj [("flow", Json.str "too short")]),
      Except.error JsErr.nonError, fun _ => Except.error "x"⟩ = validationError ∧
    AppFlowRoute.POST ⟨some "sk-test", Except.ok (Json.obj [("flow", Json.str "too short")]),
      Except.error JsErr.nonError, fun _ => Except.error "x"⟩ = validationError :=
  ⟨(c1_invalid_narrative_rejected (Json.obj [("flow", Json.str "too short")])
      (fun h => Json.noConfusion h) (Or.inr (Or.inr (by decide)))).1 _ _,
   (c1_invalid_narrative_rejected (Json.obj [("flow", Json.str "too short")])
      (fun h => Json.noConfusion h) (Or.inr (Or.inr (by decide)))).2 _ _ _ rfl⟩

/-- A concrete valid request body used by witnesses. -/
def wBody : Json := Json.obj [("flow", Json.str "Customer pays the merchant by card online today.")]

/-- A concrete upstream payload whose content string is `"payload"`. -/
def wData : Json :=
  Json.obj [("choices", Json.arr [Json.obj [("message", Json.obj [("content", Json.str "payload")])]])]

/-- A concrete well-formed generation result. -/
def wParsed : Json :=
  Json.obj [("mermaid", Json.str "sequenceDiagram\n  Customer->>Merchant: pay"),
            ("notes", Json.str "- auth then capture")]

/-- A concrete JSON parser mapping `"payload"` to `wParsed`. -/
def wParse : String → Except String Json :=
  fun s => if s = "payload" then Except.ok wParsed else Except.error "Unexpected token"

/-- Claim C2: when the parsed upstream JSON has a string mermaid field
starting with `sequenceDiagram` and a string notes field, both handler
variants answer 200 echoing exactly those two values. -/
theorem c2_valid_result_echoed (body : Json) (resp : FetchResponse) (data parsed : Json)
    (p : String → Except String Json) (m n : String) (k : Option String)
    (hk : envFalsy k = false)
    (hflow : flowRejected (jsGet body "flow") = false)
    (hok : resp.ok = true) (hjson : resp.json = Except.ok data)
    (hp : p (contentStrOf data) = Except.ok parsed)
    (hm : jsGet parsed "mermaid" = some (Json.str m))
    (hpre : jsStartsWith m "sequenceDiagram" = true)
    (hn : jsGet parsed "notes" = some (Json.str n)) :
    FlowRoute.POST ⟨Except.ok body, Except.ok resp, p⟩ = successResponse m n ∧
    AppFlowRoute.POST ⟨k, Except.ok body, Except.ok resp, p⟩ = successResponse m n := by
  obtain ⟨rok, rstatus, rtext, rjson⟩ := resp
  simp only at hok hjson
  subst hok
  subst hjson
  have hb := body_ne_null_of_flow_ok hflow
  constructor
  · simp [FlowRoute.POST, destructFlow_ok body hb, hflow, hp, extractField, hm, hn, hpre,
      successResponse, NextResponse.json]
  · simp [AppFlowRoute.POST, hk, destructFlow_ok body hb, hflow, hp, extractField, hm, hn, hpre,
      successResponse, NextResponse.json]

theorem c2_witness :
    FlowRoute.POST ⟨Except.ok wBody, Except.ok ⟨true, 200, "", Except.ok wData⟩, wParse⟩ =
      successResponse "sequenceDiagram\n  Customer->>Merchant: pay" "- auth then capture" ∧
    AppFlowRoute.POST ⟨some "sk-test", Except.ok wBody, Except.ok ⟨true, 200, "", Except.ok wData⟩, wParse⟩ =
      successResponse "sequenceDiagram\n  Customer->>Merchant: pay" "- auth then capture" :=
  c2_valid_result_echoed wBody ⟨true, 200, "", Except.ok wData⟩ wData wParsed wParse
    "sequenceDiagram\n  Customer->>Merchant: pay" "- auth then capture" (some "sk-test")
    rfl (by decide) rfl rfl rfl rfl (by decide) rfl

/-- Claim C3: when the extracted mermaid text does not start with the exact
literal `sequenceDiagram` (for instance because of leading whitespace),
both handler variants answer 500 with the retry message, regardless of the
notes field. -/
theorem c3_marker_failure_rejected (body : Json) (resp : FetchResponse) (data parsed : Json)
    (p : String → Except String Json) (k : Option String)
    (hk : envFalsy k = false)
    (hflow : flowRejected (jsGet body "flow") = false)
    (hok : resp.ok = true) (hjson : resp.json = Except.ok data)
    (hp : p (contentStrOf data) = Except.ok parsed)
    (hm : jsStartsWith (extractField parsed "mermaid") "sequenceDiagram" = false) :
    FlowRoute.POST ⟨Except.ok body, Except.ok resp, p⟩ = retryError ∧
    AppFlowRoute.POST ⟨k, Except.ok body, Except.ok resp, p⟩ = retryError := by
  obtain ⟨rok, rstatus, rtext, rjson⟩ := resp
  simp only at hok hjson
  subst hok
  subst hjson
  have hb := body_ne_null_of_flow_ok hflow
  constructor
  · simp [FlowRoute.POST, destructFlow_ok body hb, hflow, hp, hm, retryError, NextResponse.json]
  · simp [AppFlowRoute.POST, hk, destructFlow_ok body hb, hflow, hp, hm, retryError,
      NextResponse.json]

/-- A generation result whose diagram has leading whitespace before the
marker and a well-formed notes string. -/
def wParsedSpace : Json :=
  Json.obj [("mermaid", Json.str " sequenceDiagram\n  Customer->>Merchant: pay"),
            ("notes", Json.str "- auth then capture")]

/-- A concrete JSON parser mapping `"payload"` to `wParsedSpace`. -/
def wParseSpace : String → Except String Json :=
  fun s => if s = "payload" then Except.ok wParsedSpace else Except.error "Unexpected token"

theorem c3_witness :
    FlowRoute.POST ⟨Except.ok wBody, Except.ok ⟨true, 200, "", Except.ok wData⟩, wParseSpace⟩ =
      retryError ∧
    AppFlowRoute.POST ⟨some "sk-test", Except.ok wBody,
      Except.ok ⟨true, 200, "", Except.ok wData⟩, wParseSpace⟩ = retryError :=
  c3_marker_failure_rejected wBody ⟨true, 200, "", Except.ok wData⟩ wData wParsedSpace
    wParseSpace (some "sk-test") rfl (by decide) rfl rfl rfl (by decide)

/-- Claim C4: in the root app’s handler, an upstream content string that the
JSON parser rejects is answered 500 with the fixed invalid-JSON message,
whatever text the parser failure carries. -/
theorem c4_invalid_json_fixed_message (body : Json) (resp : FetchResponse) (data : Json)
    (p : String → Except String Json) (k : Option String) (e : String)
    (hk : envFalsy k = false)
    (hflow : flowRejected (jsGet body "flow") = false)
    (hok : resp.ok = true) (hjson : resp.json = Except.ok data)
    (hp : p (contentStrOf data) = Except.error e) :
    AppFlowRoute.POST ⟨k, Except.ok body, Except.ok resp, p⟩ = invalidJsonError := by
  obtain ⟨rok, rstatus, rtext, rjson⟩ := resp
  simp only at hok hjson
  subst hok
  subst hjson
  have hb := body_ne_null_of_flow_ok hflow
  simp [AppFlowRoute.POST, hk, destructFlow_ok body hb, hflow, hp, invalidJsonError,
    NextResponse.json]

theorem c4_witness :
    AppFlowRoute.POST ⟨some "sk-test", Except.ok wBody,
      Except.ok ⟨true, 200, "", Except.ok wData⟩,
      fun _ => Except.error "Unexpected token M in JSON at position 0"⟩ = invalidJsonError :=
  c4_invalid_json_fixed_message wBody ⟨true, 200, "", Except.ok wData⟩ wData
    (fun _ => Except.error "Unexpected token M in JSON at position 0") (some "sk-test")
    "Unexpected token M in JSON at position 0" rfl (by decide) rfl rfl rfl

/-- Claim C5: a non-success upstream response is answered 500, and the error
text of the response contains the upstream error body verbatim, in both
handler variants. -/
theorem c5_upstream_error_surfaced (body : Json) (resp : FetchResponse)
    (p : String → Except String Json) (k : Option String)
    (hk : envFalsy k = false)
    (hflow : flowRejected (jsGet body "flow") = false)
    (hfail : resp.ok = false) :
    (∃ e, FlowRoute.POST ⟨Except.ok body, Except.ok resp, p⟩ = serverError e ∧
      strIncludes e resp.text = true) ∧
    (∃ e, AppFlowRoute.POST ⟨k, Except.ok body, Except.ok resp, p⟩ = serverError e ∧
      strIncludes e resp.text = true) := by
  obtain ⟨rok, rstatus, rtext, rjson⟩ := resp
  simp only at hfail ⊢
  subst hfail
  have hb := body_ne_null_of_flow_ok hflow
  constructor
  · exact ⟨rtext, by simp [FlowRoute.POST, destructFlow_ok body hb, hflow, serverError,
      NextResponse.json], strIncludes_refl rtext⟩
  · exact ⟨"OpenAI error (" ++ toString rstatus ++ "): " ++ rtext,
      by simp [AppFlowRoute.POST, hk, destructFlow_ok body hb, hflow, serverError,
        NextResponse.json],
      strIncludes_self_suffix ("OpenAI error (" ++ toString rstatus ++ "): ") rtext⟩

theorem c5_witness :
    (∃ e, FlowRoute.POST ⟨Except.ok wBody,
        Except.ok ⟨false, 429, "insufficient_quota", Except.ok Json.null⟩, wParse⟩ =
      serverError e ∧ strIncludes e "insufficient_quota" = true) ∧
    (∃ e, AppFlowRoute.POST ⟨some "sk-test", Except.ok wBody,
        Except.ok ⟨false, 429, "insufficient_quota", Except.ok Json.null⟩, wParse⟩ =
      serverError e ∧ strIncludes e "insufficient_quota" = true) :=
  c5_upstream_error_surfaced wBody ⟨false, 429, "insufficient_quota", Except.ok Json.null⟩
    wParse (some "sk-test") rfl (by decide) rfl

/-- A response is well shaped when it is either the 200 success body with
string mermaid and notes fields, or an error body with a non-2xx status. -/
def wellShaped (r : ApiResponse) : Prop :=
  (r.status = 200 ∧ ∃ m n, r.body = Json.obj [("mermaid", Json.str m), ("notes", Json.str n)]) ∨
  ((r.status < 200 ∨ 299 < r.status) ∧ ∃ e, r.body = errorBody e)

lemma wellShaped_error (msg : String) (s : Nat) (hs : s < 200 ∨ 299 < s) :
    wellShaped (NextResponse.json (errorBody msg) s) :=
  Or.inr ⟨hs, msg, rfl⟩

lemma wellShaped_success (m n : String) :
    wellShaped (NextResponse.json (Json.obj [("mermaid", Json.str m), ("notes", Json.str n)]) 200) :=
  Or.inl ⟨rfl, m, n, rfl⟩

/-- Claim C6: whatever the request and upstream behaviour, each handler
variant answers either 200 with a mermaid/notes body or a non-2xx status
with an error body. -/
theorem c6_response_shape :
    (∀ w : World, wellShaped (FlowRoute.POST w)) ∧
    (∀ w : AppWorld, wellShaped (AppFlowRoute.POST w)) := by
  constructor
  · intro w
    obtain ⟨rq, f, p⟩ := w
    simp only [FlowRoute.POST]
    repeat' split
    all_goals first
      | exact wellShaped_error _ 500 (by omega)
      | exact wellShaped_error _ 400 (by omega)
      | exact wellShaped_success _ _
  · intro w
    obtain ⟨k, rq, f, p⟩ := w
    simp only [AppFlowRoute.POST]
    repeat' split
    all_goals first
      | exact wellShaped_error _ 500 (by omega)
      | exact wellShaped_error _ 400 (by omega)
      | exact wellShaped_success _ _

/-- Claim C7: extraction of the two expected fields replaces a missing or
non-string field by the empty string, and past the parse stage each handler
variant depends on the parsed object only through those two defaulted
strings, validating just the mermaid one — so a non-string notes never by
itself causes an error. -/
theorem c7_field_defaulting :
    (∀ parsed key, isStringField parsed key = false → extractField parsed key = "") ∧
    (∀ body resp data parsed p,
      flowRejected (jsGet body "flow") = false → resp.ok = true →
      resp.json = Except.ok data → p (contentStrOf data) = Except.ok parsed →
      FlowRoute.POST ⟨Except.ok body, Except.ok resp, p⟩ =
        (if jsStartsWith (extractField parsed "mermaid") "sequenceDiagram" = true then
          successResponse (extractField parsed "mermaid") (extractField parsed "notes")
        else retryError)) ∧
    (∀ k body resp data parsed p, envFalsy k = false →
      flowRejected (jsGet body "flow") = false → resp.ok = true →
      resp.json = Except.ok data → p (contentStrOf data) = Except.ok parsed →
      AppFlowRoute.POST ⟨k, Except.ok body, Except.ok resp, p⟩ =
        (if jsStartsWith (extractField parsed "mermaid") "sequenceDiagram" = true then
          successResponse (extractField parsed "mermaid") (extractField parsed "notes")
        else retryError)) := by
  refine ⟨?_, ?_, ?_⟩
  · intro parsed key h
    cases hj : jsGet parsed key with
    | none => simp [extractField, hj]
    | some v => cases v <;> simp_all [extractField, isStringField, hj]
  · intro body resp data parsed p hflow hok hjson hp
    obtain ⟨rok, rstatus, rtext, rjson⟩ := resp
    simp only at hok hjson
    subst hok
    subst hjson
    have hb := body_ne_null_of_flow_ok hflow
    by_cases hm : jsStartsWith (extractField parsed "mermaid") "sequenceDiagram" = true
    · simp [FlowRoute.POST, destructFlow_ok body hb, hflow, hp, hm, successResponse,
        NextResponse.json]
    · simp only [Bool.not_eq_true] at hm
      simp [FlowRoute.POST, destructFlow_ok body hb, hflow, hp, hm, retryError,
        NextResponse.json]
  · intro k body resp data parsed p hk hflow hok hjson hp
    obtain ⟨rok, rstatus, rtext, rjson⟩ := resp
    simp only at hok hjson
    subst hok
    subst hjson
    have hb := body_ne_null_of_flow_ok hflow
    by_cases hm : jsStartsWith (extractField parsed "mermaid") "sequenceDiagram" = true
    · simp [AppFlowRoute.POST, hk, destructFlow_ok body hb, hflow, hp, hm, successResponse,
        NextResponse.json]
    · simp only [Bool.not_eq_true] at hm
      simp [AppFlowRoute.POST, hk, destructFlow_ok body hb, hflow, hp, hm, retryError,
        NextResponse.json]

/-- A generation result whose notes field is a number rather than a string. -/
def wParsedNumNotes : Json :=
  Json.obj [("mermaid", Json.str "sequenceDiagram\n  Customer->>Merchant: pay"),
            ("notes", Json.num 7)]

/-- A concrete JSON parser mapping `"payload"` to `wParsedNumNotes`. -/
def wParseNumNotes : String → Except String Json :=
  fun s => if s = "payload" then Except.ok wParsedNumNotes else Except.error "Unexpected token"

theorem c7_witness :
    extractField wParsedNumNotes "notes" = "" ∧
    FlowRoute.POST ⟨Except.ok wBody, Except.ok ⟨true, 200, "", Except.ok wData⟩, wParseNumNotes⟩ =
      (if jsStartsWith (extractField wParsedNumNotes "mermaid") "sequenceDiagram" = true then
        successResponse (extractField wParsedNumNotes "mermaid")
          (extractField wParsedNumNotes "notes")
      else retryError) :=
  ⟨c7_field_defaulting.1 wParsedNumNotes "notes" rfl,
   c7_field_defaulting.2.1 wBody ⟨true, 200, "", Except.ok wData⟩ wData wParsedNumNotes
     wParseNumNotes (by decide) rfl rfl rfl⟩

/-- Claim C8: an exception thrown at any unhandled point of request handling
(request-body parsing, the upstream fetch, reading the upstream response
body, or — in `FlowRoute` — `JSON.parse` of the content) is answered 500
with the exception’s message; likewise for the unhandled points (fetch,
response-body read) of the root app’s handler. -/
theorem c8_exception_message_surfaced :
    (∀ m f p, FlowRoute.POST ⟨Except.error (JsErr.error m), f, p⟩ = serverError m) ∧
    (∀ m body p, flowRejected (jsGet body "flow") = false →
      FlowRoute.POST ⟨Except.ok body, Except.error (JsErr.error m), p⟩ = serverError m) ∧
    (∀ m body resp p, flowRejected (jsGet body "flow") = false → resp.ok = true →
      resp.json = Except.error (JsErr.error m) →
      FlowRoute.POST ⟨Except.ok body, Except.ok resp, p⟩ = serverError m) ∧
    (∀ m body resp data p, flowRejected (jsGet body "flow") = false → resp.ok = true →
      resp.json = Except.ok data → p (contentStrOf data) = Except.error m →
      FlowRoute.POST ⟨Except.ok body, Except.ok resp, p⟩ = serverError m) ∧
    (∀ m k body p, envFalsy k = false → flowRejected (jsGet body "flow") = false →
      AppFlowRoute.POST ⟨k, Except.ok body, Except.error (JsErr.error m), p⟩ = serverError m) ∧
    (∀ m k body resp p, envFalsy k = false → flowRejected (jsGet body "flow") = false →
      resp.ok = true → resp.json = Except.error (JsErr.error m) →
      AppFlowRoute.POST ⟨k, Except.ok body, Except.ok resp, p⟩ = serverError m) := by
  refine ⟨?_, ?_, ?_, ?_, ?_, ?_⟩
  · intro m f p
    simp [FlowRoute.POST, catchMessage, serverError, NextResponse.json]
  · intro m body p hflow
    have hb := body_ne_null_of_flow_ok hflow
    simp [FlowRoute.POST, destructFlow_ok body hb, hflow, catchMessage, serverError,
      NextResponse.json]
  · intro m body resp p hflow hok hjson
    obtain ⟨rok, rstatus, rtext, rjson⟩ := resp
    simp only at hok hjson
    subst hok
    subst hjson
    have hb := body_ne_null_of_flow_ok hflow
    simp [FlowRoute.POST, destructFlow_ok body hb, hflow, catchMessage, serverError,
      NextResponse.json]
  · intro m body resp data p hflow hok hjson hp
    obtain ⟨rok, rstatus, rtext, rjson⟩ := resp
    simp only at hok hjson
    subst hok
    subst hjson
    have hb := body_ne_null_of_flow_ok hflow
    simp [FlowRoute.POST, destructFlow_ok body hb, hflow, hp, serverError, NextResponse.json]
  · intro m k body p hk hflow
    have hb := body_ne_null_of_flow_ok hflow
    simp [AppFlowRoute.POST, hk, destructFlow_ok body hb, hflow, catchMessage, serverError,
      NextResponse.json]
  · intro m k body resp p hk hflow hok hjson
    obtain ⟨rok, rstatus, rtext, rjson⟩ := resp
    simp only at hok hjson
    subst hok
    subst hjson
    have hb := body_ne_null_of_flow_ok hflow
    simp [AppFlowRoute.POST, hk, destructFlow_ok body hb, hflow, catchMessage, serverError,
      NextResponse.json]

theorem c8_witness :
    FlowRoute.POST ⟨Except.error (JsErr.error "network boom"),
      Except.error JsErr.nonError, wParse⟩ = serverError "network boom" ∧
    FlowRoute.POST ⟨Except.ok wBody, Except.error (JsErr.error "fetch failed"), wParse⟩ =
      serverError "fetch failed" :=
  ⟨c8_exception_message_surfaced.1 "network boom" (Except.error JsErr.nonError) wParse,
   c8_exception_message_surfaced.2.1 "fetch failed" wBody wParse (by decide)⟩

/-- Claim C9 counterexample: there is no single generic fallback message —
`cleanApiError` returns non-matching inputs unchanged, so two different
non-matching messages map to two different outputs. -/
theorem c9_rewrite_counterexample :
    ¬ ∃ g, ∀ msg, strIncludes msg "insufficient_quota" = false →
      strIncludes msg "Model did not return" = false → cleanApiError msg = g := by
  rintro ⟨g, h⟩
  have h1 := h "hello" (by decide) (by decide)
  have h2 := h "world" (by decide) (by decide)
  rw [show cleanApiError "hello" = "hello" from rfl] at h1
  rw [show cleanApiError "world" = "world" from rfl] at h2
  subst h1
  exact absurd h2 (by decide)

/-- Claim C9 (amended): `cleanApiError` maps messages containing
`insufficient_quota` to a fixed quota text, otherwise messages containing
`Model did not return` to a fixed retry text, otherwise messages whose trimmed
form starts with a brace to a fixed unexpected-response text, and returns
every other message unchanged. -/
theorem c9_rewrite_amended :
    (∀ msg, strIncludes msg "insufficient_quota" = true →
      cleanApiError msg = "API quota unavailable. Add billing or switch to a key with credits.") ∧
    (∀ msg, strIncludes msg "insufficient_quota" = false →
      strIncludes msg "Model did not return" = true →
      cleanApiError msg = "Couldn’t render the diagram. Please Generate again.") ∧
    (∀ msg, strIncludes msg "insufficient_quota" = false →
      strIncludes msg "Model did not return" = false →
      jsStartsWith (jsTrim msg) "\x7b" = true →
      cleanApiError msg = "Server returned an unexpected response. Please try again.") ∧
    (∀ msg, strIncludes msg "insufficient_quota" = false →
      strIncludes msg "Model did not return" = false →
      jsStartsWith (jsTrim msg) "\x7b" = false →
      cleanApiError msg = msg) := by
  refine ⟨?_, ?_, ?_, ?_⟩ <;> intro msg <;> intros <;> simp [cleanApiError, *]

theorem c9_witness :
    cleanApiError "429 insufficient_quota" =
      "API quota unavailable. Add billing or switch to a key with credits." ∧
    cleanApiError "Model did not return valid Mermaid. Try again." =
      "Couldn’t render the diagram. Please Generate again." ∧
    cleanApiError " \x7b\"error\":1\x7d" =
      "Server returned an unexpected response. Please try again." ∧
    cleanApiError "hello" = "hello" :=
  ⟨c9_rewrite_amended.1 "429 insufficient_quota" (by decide),
   c9_rewrite_amended.2.1 "Model did not return valid Mermaid. Try again." (by decide) (by decide),
   c9_rewrite_amended.2.2.1 " \x7b\"error\":1\x7d" (by decide) (by decide) (by decide),
   c9_rewrite_amended.2.2.2 "hello" (by decide) (by decide) (by decide)⟩

/-- An upstream payload carrying the number 42 — not a string — at
`choices[0].message.content`. -/
def wData42 : Json :=
  Json.obj [("choices", Json.arr [Json.obj [("message", Json.obj [("content", Json.num 42)])]])]

/-- Claim C10 counterexample: for a payload whose content is a non-string,
non-null value (the number 42), the endpoint does not substitute the
literal empty-object text — the string handed to `JSON.parse` is `"42"`. -/
theorem c10_content_default_counterexample :
    contentIsStr wData42 = false ∧ contentStrOf wData42 = "42" ∧
      contentStrOf wData42 ≠ "\x7b\x7d" :=
  ⟨rfl, rfl, by decide⟩

/-- Claim C10 (amended): when the upstream payload’s value at
`choices[0].message.content` is absent or null, both handler variants hand
the literal empty-object text to the JSON parser; since it parses to the
empty object, both fields default to empty text, the marker check fails,
and the response is exactly the 500 retry error — in particular neither the
invalid-JSON error nor an exception-derived error. -/
theorem c10_content_default_amended (body : Json) (resp : FetchResponse) (data : Json)
    (p : String → Except String Json) (k : Option String)
    (hk : envFalsy k = false)
    (hflow : flowRejected (jsGet body "flow") = false)
    (hok : resp.ok = true) (hjson : resp.json = Except.ok data)
    (hmiss : contentOpt data = none ∨ contentOpt data = some Json.null)
    (hp : p "\x7b\x7d" = Except.ok (Json.obj [])) :
    FlowRoute.POST ⟨Except.ok body, Except.ok resp, p⟩ = retryError ∧
    AppFlowRoute.POST ⟨k, Except.ok body, Except.ok resp, p⟩ = retryError := by
  have hc : contentStrOf data = "\x7b\x7d" := by
    unfold contentStrOf contentJson
    rcases hmiss with h | h <;> rw [h] <;> rfl
  have hp2 : p (contentStrOf data) = Except.ok (Json.obj []) := by rw [hc]; exact hp
  have hm : jsStartsWith (extractField (Json.obj []) "mermaid") "sequenceDiagram" = false := by
    decide
  obtain ⟨rok, rstatus, rtext, rjson⟩ := resp
  simp only at hok hjson
  subst hok
  subst hjson
  have hb := body_ne_null_of_flow_ok hflow
  constructor
  · simp [FlowRoute.POST, destructFlow_ok body hb, hflow, hp2, hm, retryError, NextResponse.json]
  · simp [AppFlowRoute.POST, hk, destructFlow_ok body hb, hflow, hp2, hm, retryError,
      NextResponse.json]

/-- An upstream payload with an empty choices array, so the content path is
absent. -/
def wDataNoChoices : Json := Json.obj [("choices", Json.arr [])]

/-- A concrete JSON parser mapping the empty-object text to the empty
object. -/
def wParseEmptyObj : String → Except String Json :=
  fun s => if s = "\x7b\x7d" then Except.ok (Json.obj []) else Except.error "Unexpected token"

theorem c10_witness :
    FlowRoute.POST ⟨Except.ok wBody, Except.ok ⟨true, 200, "", Except.ok wDataNoChoices⟩,
      wParseEmptyObj⟩ = retryError ∧
    AppFlowRoute.POST ⟨some "sk-test", Except.ok wBody,
      Except.ok ⟨true, 200, "", Except.ok wDataNoChoices⟩, wParseEmptyObj⟩ = retryError :=
  c10_content_default_amended wBody ⟨true, 200, "", Except.ok wDataNoChoices⟩ wDataNoChoices
    wParseEmptyObj (some "sk-test") rfl (by decide) rfl rfl (Or.inl rfl) rfl
